import Mathlib

/-!
Shallow embedding of the tax-computation core of the `tax_return_app`
repository (`models.py` and `calculators.py`).  Currency amounts are
modelled as exact rationals (`ℚ`); Python's `math.floor` is modelled by
`mfloor` (floor division of numerator by denominator).  Python dicts
keyed by category are modelled by per-category sum functions together
with a presence test (`hasIncome`) where the source iterates over the
keys actually present.
-/

namespace TaxApp

/-- Python `math.floor` on a rational, returned as a rational
(the source keeps working with the floored value in float arithmetic). -/
def mfloor (q : ℚ) : ℚ := ((⌊q⌋ : ℤ) : ℚ)

/-- models.py `TransactionType`. -/
inductive TransactionType where
  | INCOME
  | EXPENSE
deriving DecidableEq, BEq, Repr

/-- models.py `IncomeCategory`. -/
inductive IncomeCategory where
  | SALARY
  | BUSINESS
  | RENTAL
  | DIVIDEND
  | INTEREST
  | CAPITAL_GAIN
  | PENSION
  | OTHER
deriving DecidableEq, BEq, Repr

/-- The `.value` string of an income category. -/
def IncomeCategory.val : IncomeCategory → String
  | .SALARY => "給与所得"
  | .BUSINESS => "事業所得"
  | .RENTAL => "不動産所得"
  | .DIVIDEND => "配当所得"
  | .INTEREST => "利子所得"
  | .CAPITAL_GAIN => "譲渡所得"
  | .PENSION => "雑所得(年金)"
  | .OTHER => "その他雑所得"

/-- models.py `ExpenseCategory`. -/
inductive ExpenseCategory where
  | OFFICE_RENT
  | UTILITIES
  | COMMUNICATION
  | TRAVEL
  | ENTERTAINMENT
  | SUPPLIES
  | ADVERTISING
  | INSURANCE
  | DEPRECIATION
  | OUTSOURCING
  | TRAINING
  | MEDICAL
  | DONATION
  | OTHER
deriving DecidableEq, BEq, Repr

/-- The `.value` string of an expense category. -/
def ExpenseCategory.val : ExpenseCategory → String
  | .OFFICE_RENT => "事務所家賃"
  | .UTILITIES => "水道光熱費"
  | .COMMUNICATION => "通信費"
  | .TRAVEL => "旅費交通費"
  | .ENTERTAINMENT => "接待交際費"
  | .SUPPLIES => "消耗品費"
  | .ADVERTISING => "広告宣伝費"
  | .INSURANCE => "保険料"
  | .DEPRECIATION => "減価償却費"
  | .OUTSOURCING => "外注費"
  | .TRAINING => "研修費"
  | .MEDICAL => "医療費"
  | .DONATION => "寄付金"
  | .OTHER => "その他経費"

/-- Iteration order of `for exp_cat in ExpenseCategory` (declaration order). -/
def allExpenseCategories : List ExpenseCategory :=
  [.OFFICE_RENT, .UTILITIES, .COMMUNICATION, .TRAVEL, .ENTERTAINMENT, .SUPPLIES,
   .ADVERTISING, .INSURANCE, .DEPRECIATION, .OUTSOURCING, .TRAINING, .MEDICAL,
   .DONATION, .OTHER]

/-- models.py `Transaction` (fields not read by the calculators — date,
receipt data — are kept with simple placeholder types). -/
structure Transaction where
  id : String
  date : Nat
  transaction_type : TransactionType
  category : String
  subcategory : String
  amount : ℚ
  description : String
  tax_related : Bool
  notes : String
deriving DecidableEq, Repr

/-- One entry of `PersonalInfo.dependents` (the calculators read only
`int(dependent.get('age', 0))`). -/
structure Dependent where
  age : ℤ
deriving DecidableEq, Repr

/-- models.py `PersonalInfo` (fields read by the calculators). -/
structure PersonalInfo where
  name : String
  spouse_name : String
  spouse_income : ℚ
  dependents : List Dependent
deriving DecidableEq, Repr

/-- models.py `TaxSettings` (fields read by the calculators). -/
structure TaxSettings where
  tax_year : ℤ
  filing_type : String
  business_type : String
  accounting_method : String
deriving DecidableEq, Repr

/-- models.py `Deductions`, with every field of the dataclass. -/
structure Deductions where
  basic_deduction : Bool
  basic_deduction_amount : ℚ
  spouse_deduction : Bool
  spouse_deduction_amount : ℚ
  dependent_deduction : ℚ
  social_insurance_premium : ℚ
  life_insurance_premium : ℚ
  earthquake_insurance_premium : ℚ
  donation : ℚ
  medical_expense : ℚ
  home_loan_deduction : ℚ
  special_deductions : List (String × ℚ)
deriving DecidableEq, Repr

/-- models.py `TaxReturnData` (the fields the calculators read). -/
structure TaxReturnData where
  personal_info : PersonalInfo
  tax_settings : TaxSettings
  transactions : List Transaction
  deductions : Deductions
deriving DecidableEq, Repr

/-- Python `s.find(pat) >= 0` on character lists: `pat` occurs as a
contiguous run somewhere in the list. -/
def strFindAux (pat : List Char) : List Char → Bool
  | [] => pat.isPrefixOf ([] : List Char)
  | c :: rest => pat.isPrefixOf (c :: rest) || strFindAux pat rest

/-- Python `s.find(pat) >= 0` on strings. -/
def strContains (s pat : String) : Bool := strFindAux pat.toList s.toList

/-- Python `sum(t.amount for t in ts if p t)`. -/
def sumBy (p : Transaction → Bool) (ts : List Transaction) : ℚ :=
  ((ts.filter p).map Transaction.amount).sum

/-- Membership predicate of `get_income_by_category` in models.py: a
tax-related income transaction of category `c`. -/
def incomePred (c : IncomeCategory) (t : Transaction) : Bool :=
  t.transaction_type == .INCOME && t.tax_related && t.category == c.val

/-- Membership predicate of `get_expense_by_category` in models.py. -/
def expensePred (c : ExpenseCategory) (t : Transaction) : Bool :=
  t.transaction_type == .EXPENSE && t.tax_related && t.category == c.val

/-- Value of `get_income_by_category()[c.value]` (0 when the key is absent). -/
def incomeSum (c : IncomeCategory) (ts : List Transaction) : ℚ :=
  sumBy (incomePred c) ts

/-- Whether `c.value` is a key of `get_income_by_category()` (the dict holds
exactly the categories with at least one tax-related income transaction). -/
def hasIncome (c : IncomeCategory) (ts : List Transaction) : Bool :=
  ts.any (incomePred c)

/-- Value of `get_expense_by_category().get(c.value, 0)`. -/
def expenseSum (c : ExpenseCategory) (ts : List Transaction) : ℚ :=
  sumBy (expensePred c) ts

/-- models.py `TaxReturnData.calculate_total_expense`. -/
def calculate_total_expense (ts : List Transaction) : ℚ :=
  sumBy (fun t => t.transaction_type == .EXPENSE && t.tax_related) ts

/-! ## IncomeCalculator -/

/-- `IncomeCalculator.salary_deduction_rates`; `none` stands for
`float('inf')`. -/
def salary_deduction_rates : List (Option ℚ × ℚ × ℚ) :=
  [(some 1625000, 0.55, 0),
   (some 1800000, 0.4, 427500),
   (some 3600000, 0.3, 636000),
   (some 6600000, 0.2, 1536000),
   (some 8500000, 0.1, 2196000),
   (none, 0.0, 2955000)]

/-- The `for ... if v <= threshold: return` loop shared by the bracket
tables: the rate/fixed pair of the first entry whose threshold is at
least `v` (`none` = +∞ always matches). -/
def findBracket (v : ℚ) : List (Option ℚ × ℚ × ℚ) → Option (ℚ × ℚ)
  | [] => none
  | (t, r, d) :: rest =>
    match t with
    | none => some (r, d)
    | some th => if v ≤ th then some (r, d) else findBracket v rest

/-- calculators.py `IncomeCalculator.calculate_salary_deduction`. -/
def calculate_salary_deduction (salary_income : ℚ) : ℚ :=
  if salary_income ≤ 650000 then salary_income
  else if salary_income ≤ 1625000 then salary_income * 0.55
  else
    match findBracket salary_income salary_deduction_rates with
    | some (rate, fixed) => salary_income * rate + fixed
    | none => 2955000

/-- calculators.py `IncomeCalculator.calculate_business_income`. -/
def calculate_business_income (business_revenue business_expenses blue_return_deduction : ℚ) : ℚ :=
  max 0 (business_revenue - business_expenses - blue_return_deduction)

/-- calculators.py `IncomeCalculator.calculate_rental_income`. -/
def calculate_rental_income (rental_revenue rental_expenses : ℚ) : ℚ :=
  max 0 (rental_revenue - rental_expenses)

/-- The business-expense accumulation inside `calculate_total_income`:
starts from the Outsourcing total, then the `for exp_cat in ExpenseCategory`
loop adds every category except Medical and Donation (it does not skip
Outsourcing, which is therefore added a second time). -/
def businessExpenses (ts : List Transaction) : ℚ :=
  allExpenseCategories.foldl
    (fun acc c =>
      if c != ExpenseCategory.MEDICAL && c != ExpenseCategory.DONATION then
        acc + expenseSum c ts
      else acc)
    (expenseSum .OUTSOURCING ts)

/-- Result dict of `IncomeCalculator.calculate_total_income`. -/
structure IncomeBreakdown where
  salary_income : ℚ
  business_income : ℚ
  rental_income : ℚ
  dividend_income : ℚ
  interest_income : ℚ
  capital_gain : ℚ
  pension_income : ℚ
  other_income : ℚ
  total_income : ℚ
deriving DecidableEq, Repr

/-- calculators.py `IncomeCalculator.calculate_total_income`.  Each result
field stays 0 when its category has no tax-related income transaction
(the source iterates only over the categories present in the dict). -/
def calculate_total_income (tax_data : TaxReturnData) : IncomeBreakdown :=
  let ts := tax_data.transactions
  let salary_income :=
    if hasIncome .SALARY ts then
      max 0 (incomeSum .SALARY ts - calculate_salary_deduction (incomeSum .SALARY ts))
    else 0
  let business_income :=
    if hasIncome .BUSINESS ts then
      calculate_business_income (incomeSum .BUSINESS ts) (businessExpenses ts)
        (if tax_data.tax_settings.filing_type == "青色申告" then 650000 else 0)
    else 0
  let rental_income :=
    if hasIncome .RENTAL ts then
      calculate_rental_income (incomeSum .RENTAL ts)
        (expenseSum .OFFICE_RENT ts + expenseSum .UTILITIES ts + expenseSum .DEPRECIATION ts)
    else 0
  let dividend_income := if hasIncome .DIVIDEND ts then incomeSum .DIVIDEND ts else 0
  let interest_income := if hasIncome .INTEREST ts then incomeSum .INTEREST ts else 0
  let capital_gain := if hasIncome .CAPITAL_GAIN ts then incomeSum .CAPITAL_GAIN ts else 0
  let pension_income := if hasIncome .PENSION ts then incomeSum .PENSION ts else 0
  let other_income := if hasIncome .OTHER ts then incomeSum .OTHER ts else 0
  { salary_income := salary_income
    business_income := business_income
    rental_income := rental_income
    dividend_income := dividend_income
    interest_income := interest_income
    capital_gain := capital_gain
    pension_income := pension_income
    other_income := other_income
    total_income := salary_income + business_income + rental_income + dividend_income +
      interest_income + capital_gain + pension_income + other_income }

/-! ## DeductionCalculator -/

/-- calculators.py `DeductionCalculator.calculate_basic_deduction`
(`self.basic_deduction_amount = 480000`). -/
def calculate_basic_deduction (total_income : ℚ) : ℚ :=
  if total_income ≤ 24000000 then 480000
  else if total_income ≤ 24500000 then 320000
  else if total_income ≤ 25000000 then 160000
  else 0

/-- The tail of `calculate_spouse_deduction` after `base_amount` is chosen. -/
def spouseTail (base_amount spouse_income : ℚ) : ℚ :=
  if spouse_income ≤ 480000 then base_amount
  else max 0 (base_amount - (spouse_income - 480000))

/-- calculators.py `DeductionCalculator.calculate_spouse_deduction`
(`self.spouse_deduction_amount = 380000`). -/
def calculate_spouse_deduction (spouse_income total_income : ℚ) : ℚ :=
  if spouse_income > 480000 ∨ total_income > 10000000 then 0
  else if total_income ≤ 9000000 then spouseTail 380000 spouse_income
  else if total_income ≤ 9500000 then spouseTail 260000 spouse_income
  else if total_income ≤ 10000000 then spouseTail 130000 spouse_income
  else 0

/-- Per-dependent amount inside `calculate_dependent_deduction`
(`self.dependent_deduction_amount = 380000`). -/
def dependentAmount (dep : Dependent) : ℚ :=
  if dep.age ≥ 70 then 580000
  else if dep.age ≥ 19 ∧ dep.age ≤ 22 then 630000
  else 380000

/-- calculators.py `DeductionCalculator.calculate_dependent_deduction`. -/
def calculate_dependent_deduction (dependents : List Dependent) : ℚ :=
  (dependents.map dependentAmount).sum

/-- calculators.py `DeductionCalculator.calculate_social_insurance_deduction`. -/
def calculate_social_insurance_deduction (premium : ℚ) : ℚ := premium

/-- calculators.py `DeductionCalculator.calculate_life_insurance_deduction`. -/
def calculate_life_insurance_deduction (premium : ℚ) : ℚ :=
  if premium ≤ 20000 then premium
  else if premium ≤ 40000 then premium * 0.5 + 10000
  else if premium ≤ 80000 then premium * 0.25 + 20000
  else 40000

/-- calculators.py `DeductionCalculator.calculate_earthquake_insurance_deduction`. -/
def calculate_earthquake_insurance_deduction (premium : ℚ) : ℚ :=
  min premium 50000

/-- calculators.py `DeductionCalculator.calculate_donation_deduction`. -/
def calculate_donation_deduction (donation total_income : ℚ) : ℚ :=
  max 0 (donation - 2000)

/-- calculators.py `DeductionCalculator.calculate_medical_deduction`. -/
def calculate_medical_deduction (medical_expense total_income : ℚ) : ℚ :=
  max 0 (medical_expense - min (total_income * 0.05) 100000)

/-- Result dict of `DeductionCalculator.calculate_total_deductions`. -/
structure DeductionBreakdown where
  basic_deduction : ℚ
  spouse_deduction : ℚ
  dependent_deduction : ℚ
  social_insurance_deduction : ℚ
  life_insurance_deduction : ℚ
  earthquake_insurance_deduction : ℚ
  donation_deduction : ℚ
  medical_deduction : ℚ
  home_loan_deduction : ℚ
  total_deductions : ℚ
deriving DecidableEq, Repr

/-- calculators.py `DeductionCalculator.calculate_total_deductions`.
`total_deductions` sums every field except `home_loan_deduction`. -/
def calculate_total_deductions (tax_data : TaxReturnData) (total_income : ℚ) : DeductionBreakdown :=
  let d := tax_data.deductions
  let basic := if d.basic_deduction then calculate_basic_deduction total_income else 0
  let spouse :=
    if d.spouse_deduction then
      calculate_spouse_deduction tax_data.personal_info.spouse_income total_income
    else 0
  let dependent := calculate_dependent_deduction tax_data.personal_info.dependents
  let social := calculate_social_insurance_deduction d.social_insurance_premium
  let life := calculate_life_insurance_deduction d.life_insurance_premium
  let earthquake := calculate_earthquake_insurance_deduction d.earthquake_insurance_premium
  let donation := calculate_donation_deduction d.donation total_income
  let medical := calculate_medical_deduction d.medical_expense total_income
  let home_loan := d.home_loan_deduction
  { basic_deduction := basic
    spouse_deduction := spouse
    dependent_deduction := dependent
    social_insurance_deduction := social
    life_insurance_deduction := life
    earthquake_insurance_deduction := earthquake
    donation_deduction := donation
    medical_deduction := medical
    home_loan_deduction := home_loan
    total_deductions := basic + spouse + dependent + social + life + earthquake +
      donation + medical }

/-! ## TaxCalculator -/

/-- `TaxCalculator.income_tax_brackets`; `none` stands for `float('inf')`. -/
def income_tax_brackets : List (Option ℚ × ℚ × ℚ) :=
  [(some 1950000, 0.05, 0),
   (some 3300000, 0.10, 97500),
   (some 6950000, 0.20, 427500),
   (some 9000000, 0.23, 636000),
   (some 18000000, 0.33, 1536000),
   (some 40000000, 0.40, 2796000),
   (none, 0.45, 4796000)]

/-- calculators.py `TaxCalculator.calculate_income_tax`. -/
def calculate_income_tax (taxable_income : ℚ) : ℚ :=
  if taxable_income ≤ 0 then 0
  else
    match findBracket taxable_income income_tax_brackets with
    | some (rate, deduction) => max 0 (mfloor (taxable_income * rate - deduction))
    | none => mfloor (taxable_income * 0.45 - 4796000)

/-- calculators.py `TaxCalculator.calculate_reconstruction_tax`
(`self.reconstruction_tax_rate = 0.021`). -/
def calculate_reconstruction_tax (income_tax : ℚ) : ℚ :=
  mfloor (income_tax * 0.021)

/-- calculators.py `TaxCalculator.calculate_resident_tax`
(`self.resident_tax_rate = 0.10`, per-capita 5000). -/
def calculate_resident_tax (taxable_income : ℚ) : ℚ :=
  if taxable_income ≤ 0 then 0
  else mfloor (taxable_income * 0.10 + 5000)

/-- calculators.py `TaxCalculator.calculate_business_tax`. -/
def calculate_business_tax (business_income : ℚ) : ℚ :=
  if business_income ≤ 2900000 then 0
  else
    let taxable_business_income := business_income - 2900000
    if taxable_business_income ≤ 4000000 then
      mfloor (taxable_business_income * 0.05)
    else
      mfloor (4000000 * 0.05 + (taxable_business_income - 4000000) * 0.048)

/-- calculators.py `TaxCalculator.calculate_consumption_tax`. -/
def calculate_consumption_tax (business_revenue : ℚ) : ℚ :=
  if business_revenue ≤ 10000000 then 0
  else mfloor (business_revenue * 0.10)

/-- calculators.py `TaxCalculator.calculate_estimated_quarterly_tax`. -/
def calculate_estimated_quarterly_tax (annual_tax : ℚ) : List ℚ :=
  List.replicate 4 (annual_tax / 4)

/-- The withholding marker substring scanned for in transaction
descriptions (`t.description.find('源泉') >= 0`). -/
def withholdingMarker : String := "源泉"

/-- The estimated-prepayment marker substring
(`t.description.find('予定納税') >= 0`). -/
def prepaidMarker : String := "予定納税"

/-- The `withholding_tax` sum in `calculate_all_taxes`: every Expense
transaction whose description contains the withholding marker
(`tax_related` is not consulted here). -/
def withholdingSum (ts : List Transaction) : ℚ :=
  sumBy (fun t => strContains t.description withholdingMarker &&
    t.transaction_type == .EXPENSE) ts

/-- The `prepaid_tax` sum in `calculate_all_taxes` (again without a
`tax_related` check). -/
def prepaidSum (ts : List Transaction) : ℚ :=
  sumBy (fun t => strContains t.description prepaidMarker &&
    t.transaction_type == .EXPENSE) ts

/-- Result dict of `TaxCalculator.calculate_all_taxes`. -/
structure TaxResult where
  total_income : ℚ
  total_expense : ℚ
  net_income : ℚ
  total_deductions : ℚ
  taxable_income : ℚ
  income_tax : ℚ
  reconstruction_tax : ℚ
  resident_tax : ℚ
  business_tax : ℚ
  consumption_tax : ℚ
  total_tax : ℚ
  withholding_tax : ℚ
  prepaid_tax : ℚ
  tax_due : ℚ
  refund_amount : ℚ
  home_loan_deduction_applied : ℚ
  estimated_quarterly_tax : List ℚ
  income_breakdown : IncomeBreakdown
  deduction_breakdown : DeductionBreakdown
deriving DecidableEq, Repr

/-- Local `total_income` of `calculate_all_taxes`. -/
def totalIncomeOf (tax_data : TaxReturnData) : ℚ :=
  (calculate_total_income tax_data).total_income

/-- Local `total_deductions` of `calculate_all_taxes`. -/
def totalDeductionsOf (tax_data : TaxReturnData) : ℚ :=
  (calculate_total_deductions tax_data (totalIncomeOf tax_data)).total_deductions

/-- Local `taxable_income` of `calculate_all_taxes`. -/
def taxableIncomeOf (tax_data : TaxReturnData) : ℚ :=
  max 0 (totalIncomeOf tax_data - totalDeductionsOf tax_data)

/-- Local `income_tax` of `calculate_all_taxes` (before the home-loan
credit is applied). -/
def preIncomeTaxOf (tax_data : TaxReturnData) : ℚ :=
  calculate_income_tax (taxableIncomeOf tax_data)

/-- calculators.py `TaxCalculator.calculate_all_taxes`. -/
def calculate_all_taxes (tax_data : TaxReturnData) : TaxResult :=
  let income_breakdown := calculate_total_income tax_data
  let total_income := income_breakdown.total_income
  let deduction_breakdown := calculate_total_deductions tax_data total_income
  let total_deductions := deduction_breakdown.total_deductions
  let taxable_income := max 0 (total_income - total_deductions)
  let income_tax := calculate_income_tax taxable_income
  let reconstruction_tax := calculate_reconstruction_tax income_tax
  let resident_tax := calculate_resident_tax taxable_income
  let business_tax := calculate_business_tax income_breakdown.business_income
  let business_revenue := incomeSum .BUSINESS tax_data.transactions
  let consumption_tax := calculate_consumption_tax business_revenue
  let home_loan_deduction := deduction_breakdown.home_loan_deduction
  let final_income_tax := max 0 (income_tax - home_loan_deduction)
  let final_total_tax := final_income_tax + reconstruction_tax + resident_tax +
    business_tax + consumption_tax
  let withholding_tax := withholdingSum tax_data.transactions
  let prepaid_tax := prepaidSum tax_data.transactions
  let paid_tax := withholding_tax + prepaid_tax
  let tax_due := if final_total_tax > paid_tax then final_total_tax - paid_tax else 0
  let refund_amount := if final_total_tax > paid_tax then 0 else paid_tax - final_total_tax
  let total_expense := calculate_total_expense tax_data.transactions
  { total_income := total_income
    total_expense := total_expense
    net_income := total_income - total_expense
    total_deductions := total_deductions
    taxable_income := taxable_income
    income_tax := final_income_tax
    reconstruction_tax := reconstruction_tax
    resident_tax := resident_tax
    business_tax := business_tax
    consumption_tax := consumption_tax
    total_tax := final_total_tax
    withholding_tax := withholding_tax
    prepaid_tax := prepaid_tax
    tax_due := tax_due
    refund_amount := refund_amount
    home_loan_deduction_applied := home_loan_deduction
    estimated_quarterly_tax := calculate_estimated_quarterly_tax final_income_tax
    income_breakdown := income_breakdown
    deduction_breakdown := deduction_breakdown }

/-! ## Spec-side definitions (used to state claims against the code) -/

/-- The bracket contract of the spec for the national income tax: the value of
the first bracket whose threshold is at least `v`, as `floor(v * rate − fixed)`
with no further clamping (stated from the spec to compare with the code). -/
def incomeTaxBracketValue (v : ℚ) : ℚ :=
  match findBracket v income_tax_brackets with
  | some (rate, deduction) => mfloor (v * rate - deduction)
  | none => mfloor (v * 0.45 - 4796000)

/-- The spec's stepped base amount for the spouse deduction
(380,000 / 260,000 / 130,000 at the 9M / 9.5M / 10M breakpoints). -/
def spouseBaseAmount (total_income : ℚ) : ℚ :=
  if total_income ≤ 9000000 then 380000
  else if total_income ≤ 9500000 then 260000
  else 130000

/-- `calculate_spouse_deduction` with the dollar-for-dollar reduction branch
of `spouseTail` removed: the claim that the branch never fires is expressed
as equality of the two functions. -/
def spouseDeductionBranchless (spouse_income total_income : ℚ) : ℚ :=
  if spouse_income > 480000 ∨ total_income > 10000000 then 0
  else if total_income ≤ 9000000 then 380000
  else if total_income ≤ 9500000 then 260000
  else if total_income ≤ 10000000 then 130000
  else 0

/-! ## Concrete inputs for the scenario claims -/

/-- A `Deductions` record with every default of the dataclass
(only the basic deduction elected). -/
def defaultDeductions : Deductions :=
  { basic_deduction := true, basic_deduction_amount := 480000,
    spouse_deduction := false, spouse_deduction_amount := 0,
    dependent_deduction := 0, social_insurance_premium := 0,
    life_insurance_premium := 0, earthquake_insurance_premium := 0,
    donation := 0, medical_expense := 0, home_loan_deduction := 0,
    special_deductions := [] }

/-- Default `TaxSettings` (Blue filing). -/
def defaultSettings : TaxSettings :=
  { tax_year := 2024, filing_type := "青色申告", business_type := "",
    accounting_method := "現金主義" }

/-- Default `PersonalInfo`: no spouse income, no dependents. -/
def defaultPersonal : PersonalInfo :=
  { name := "", spouse_name := "", spouse_income := 0, dependents := [] }

/-- Builds a transaction with the fields the calculators read. -/
def mkTx (ty : TransactionType) (cat : String) (amt : ℚ) (desc : String)
    (tr : Bool) : Transaction :=
  { id := "t", date := 0, transaction_type := ty, category := cat,
    subcategory := "", amount := amt, description := desc, tax_related := tr,
    notes := "" }

/-- Scenario input of C1: Business revenue 5,000,000, a single Outsourcing
expense of 1,000,000, Blue filing. -/
def businessScenarioData : TaxReturnData :=
  { personal_info := defaultPersonal, tax_settings := defaultSettings,
    transactions := [mkTx .INCOME "事業所得" 5000000 "売上" true,
                     mkTx .EXPENSE "外注費" 1000000 "外注" true],
    deductions := defaultDeductions }

/-- Scenario input of C4: exactly one Salary income transaction of
3,000,000, tax-related, only the basic deduction elected. -/
def salaryScenarioData : TaxReturnData :=
  { personal_info := defaultPersonal, tax_settings := defaultSettings,
    transactions := [mkTx .INCOME "給与所得" 3000000 "給与" true],
    deductions := defaultDeductions }

/-- An Expense transaction with the withholding marker in its description
and `tax_related = false` (used to refute C2). -/
def offMarkedTransaction : Transaction :=
  mkTx .EXPENSE "その他経費" 100000 "源泉所得税" false

/-- C2 counterexample input: only `offMarkedTransaction`. -/
def offMarkedData : TaxReturnData :=
  { personal_info := defaultPersonal, tax_settings := defaultSettings,
    transactions := [offMarkedTransaction],
    deductions := defaultDeductions }

/-- The C2 counterexample input with its transaction removed. -/
def offMarkedDataRemoved : TaxReturnData :=
  { offMarkedData with transactions := [] }

/-- A `tax_related = false` transaction with no marker in its description
(used by the C2 witness). -/
def offPlainTransaction : Transaction :=
  mkTx .EXPENSE "消耗品費" 5000 "備品" false

/-- A base input reused by the C2 witness (its `transactions` field is
overridden in the witness statement). -/
def plainBaseData : TaxReturnData :=
  { personal_info := defaultPersonal, tax_settings := defaultSettings,
    transactions := [], deductions := defaultDeductions }

/-- Input with no transactions at all (used by the C5 and C6 witnesses). -/
def emptyData : TaxReturnData :=
  { personal_info := defaultPersonal, tax_settings := defaultSettings,
    transactions := [], deductions := defaultDeductions }

/-! ## Theorems -/

section Proofs

attribute [local semireducible] Rat.add Rat.mul Rat.sub Rat.inv Rat.ofScientific

theorem mfloor_nonneg (q : ℚ) (h : 0 ≤ q) : 0 ≤ mfloor q := by
  unfold mfloor
  exact_mod_cast Int.floor_nonneg.mpr h

theorem calculate_income_tax_nonneg (v : ℚ) : 0 ≤ calculate_income_tax v := by
  unfold calculate_income_tax
  split
  · exact le_refl 0
  · simp only [income_tax_brackets, findBracket]
    split_ifs <;> exact le_max_left 0 _

/-- Claim C10 (confirmed): `calculate_spouse_deduction` only ever returns 0,
380,000, 260,000 or 130,000, and it coincides with the variant whose
dollar-for-dollar reduction branch is removed — that branch never
determines the result, because `spouse_income > 480,000` already returned 0. -/
theorem spouse_deduction_range (s t : ℚ) :
    calculate_spouse_deduction s t = spouseDeductionBranchless s t ∧
    (calculate_spouse_deduction s t = 0 ∨ calculate_spouse_deduction s t = 380000 ∨
      calculate_spouse_deduction s t = 260000 ∨ calculate_spouse_deduction s t = 130000) := by
  have he : calculate_spouse_deduction s t = spouseDeductionBranchless s t := by
    unfold calculate_spouse_deduction spouseDeductionBranchless
    split_ifs with hg h1 h2 h3
    · rfl
    all_goals push_neg at hg
    all_goals simp [spouseTail, hg.1]
  refine ⟨he, ?_⟩
  rw [he]
  unfold spouseDeductionBranchless
  split_ifs <;> simp

/-- Claim C7 (confirmed): the spouse deduction is 0 whenever
`spouse_income > 480,000` or `total_income > 10,000,000`; otherwise it equals
the stepped base amount reduced by `max(0, spouse_income − 480,000)` and
floored at 0; the deduction enters the breakdown only when the
`spouse_deduction` election is true; and `spouse_income = 500,000` with
`total_income = 5,000,000` yields 0. -/
theorem spouse_deduction_spec :
    (∀ s t : ℚ, s > 480000 ∨ t > 10000000 → calculate_spouse_deduction s t = 0) ∧
    (∀ s t : ℚ, s ≤ 480000 → t ≤ 10000000 →
      calculate_spouse_deduction s t = max 0 (spouseBaseAmount t - max 0 (s - 480000))) ∧
    (∀ (d : TaxReturnData) (ti : ℚ),
      (calculate_total_deductions d ti).spouse_deduction =
        (if d.deductions.spouse_deduction then
          calculate_spouse_deduction d.personal_info.spouse_income ti
        else 0)) ∧
    calculate_spouse_deduction 500000 5000000 = 0 := by
  refine ⟨?_, ?_, ?_, by decide⟩
  · intro s t h
    simp [calculate_spouse_deduction, h]
  · intro s t hs ht
    have hg : ¬(s > 480000 ∨ t > 10000000) := by push_neg; exact ⟨hs, ht⟩
    have h0 : max 0 (s - 480000) = 0 := max_eq_left (by linarith)
    unfold calculate_spouse_deduction spouseBaseAmount
    rw [if_neg hg, h0, sub_zero]
    split_ifs with h1 h2 <;> simp [spouseTail, hs]
  · intro d ti
    by_cases h : d.deductions.spouse_deduction <;>
      simp [calculate_total_deductions, h]

/-- Witness for C7: the first clause applied at spouse income 500,001 and
total income 0. -/
theorem spouse_deduction_spec_witness : calculate_spouse_deduction 500001 0 = 0 :=
  spouse_deduction_spec.1 500001 0 (Or.inl (by norm_num))

/-- Claim C8 (confirmed): the quarterly estimate is the annual tax divided
by four, repeated four times with no remainder redistribution, and the four
entries sum back to the annual tax. -/
theorem quarterly_estimate_spec (t : ℚ) :
    calculate_estimated_quarterly_tax t = [t / 4, t / 4, t / 4, t / 4] ∧
    (calculate_estimated_quarterly_tax t).length = 4 ∧
    (calculate_estimated_quarterly_tax t).sum = t := by
  refine ⟨rfl, rfl, ?_⟩
  show t / 4 + (t / 4 + (t / 4 + (t / 4 + 0))) = t
  ring

/-- Claim C4 (confirmed): the single-salary scenario — one tax-related
Salary transaction of 3,000,000, only the basic deduction elected — gives
salary deduction 1,536,000, net salary income 1,464,000, total income
1,464,000, basic deduction 480,000, taxable income 984,000 and income tax
49,200. -/
theorem salary_scenario_end_to_end :
    calculate_salary_deduction 3000000 = 1536000 ∧
    (calculate_all_taxes salaryScenarioData).income_breakdown.salary_income = 1464000 ∧
    (calculate_all_taxes salaryScenarioData).total_income = 1464000 ∧
    (calculate_all_taxes salaryScenarioData).deduction_breakdown.basic_deduction = 480000 ∧
    (calculate_all_taxes salaryScenarioData).taxable_income = 984000 ∧
    (calculate_all_taxes salaryScenarioData).income_tax = 49200 := by
  decide

/-- Claim C9 (confirmed): the `Deductions` fields `basic_deduction_amount`,
`spouse_deduction_amount`, `dependent_deduction` and `special_deductions`
are never read by `calculate_all_taxes`: two inputs that differ only in
those fields produce identical results. -/
theorem unused_deduction_fields_noninterference (d : TaxReturnData)
    (a b c : ℚ) (sd : List (String × ℚ)) (a2 b2 c2 : ℚ) (sd2 : List (String × ℚ)) :
    calculate_all_taxes { d with deductions := { d.deductions with
        basic_deduction_amount := a, spouse_deduction_amount := b,
        dependent_deduction := c, special_deductions := sd } } =
    calculate_all_taxes { d with deductions := { d.deductions with
        basic_deduction_amount := a2, spouse_deduction_amount := b2,
        dependent_deduction := c2, special_deductions := sd2 } } :=
  rfl

/-- Claim C5 (confirmed): with a nonnegative `home_loan_deduction`, the
final income tax is `max(0, income_tax − home_loan_deduction)`, so it lies
between 0 and the pre-credit income tax, and varying the home-loan field
leaves the reconstruction, resident, business and consumption taxes
unchanged. -/
theorem home_loan_credit_bounds (d : TaxReturnData)
    (h : 0 ≤ d.deductions.home_loan_deduction) :
    (calculate_all_taxes d).income_tax =
      max 0 (preIncomeTaxOf d - d.deductions.home_loan_deduction) ∧
    0 ≤ (calculate_all_taxes d).income_tax ∧
    (calculate_all_taxes d).income_tax ≤ preIncomeTaxOf d ∧
    ∀ q : ℚ,
      (calculate_all_taxes { d with deductions :=
          { d.deductions with home_loan_deduction := q } }).reconstruction_tax =
        (calculate_all_taxes d).reconstruction_tax ∧
      (calculate_all_taxes { d with deductions :=
          { d.deductions with home_loan_deduction := q } }).resident_tax =
        (calculate_all_taxes d).resident_tax ∧
      (calculate_all_taxes { d with deductions :=
          { d.deductions with home_loan_deduction := q } }).business_tax =
        (calculate_all_taxes d).business_tax ∧
      (calculate_all_taxes { d with deductions :=
          { d.deductions with home_loan_deduction := q } }).consumption_tax =
        (calculate_all_taxes d).consumption_tax := by
  refine ⟨rfl, le_max_left 0 _, ?_, ?_⟩
  · exact max_le (calculate_income_tax_nonneg _) (sub_le_self _ h)
  · intro q
    exact ⟨rfl, rfl, rfl, rfl⟩

/-- Witness for C5: the clause at the empty input, whose home-loan field
is 0. -/
theorem home_loan_credit_bounds_witness :
    (calculate_all_taxes emptyData).income_tax =
      max 0 (preIncomeTaxOf emptyData - emptyData.deductions.home_loan_deduction) :=
  (home_loan_credit_bounds emptyData (by decide)).1

/-- Claim C6 (confirmed): with `paid = withholding_tax + prepaid_tax`, the
reconciliation sets `tax_due = total_tax − paid, refund = 0` when
`total_tax > paid` and `tax_due = 0, refund = paid − total_tax` otherwise;
at most one of the two is nonzero, and both are zero exactly when
`total_tax = paid`. -/
theorem reconciliation_due_refund (d : TaxReturnData) :
    let r := calculate_all_taxes d
    let paid := r.withholding_tax + r.prepaid_tax
    (paid < r.total_tax → r.tax_due = r.total_tax - paid ∧ r.refund_amount = 0) ∧
    (r.total_tax ≤ paid → r.tax_due = 0 ∧ r.refund_amount = paid - r.total_tax) ∧
    (r.tax_due = 0 ∨ r.refund_amount = 0) ∧
    (r.tax_due = 0 ∧ r.refund_amount = 0 ↔ r.total_tax = paid) := by
  intro r paid
  have hdue : r.tax_due = (if paid < r.total_tax then r.total_tax - paid else 0) := rfl
  have href : r.refund_amount = (if paid < r.total_tax then 0 else paid - r.total_tax) := rfl
  by_cases hc : paid < r.total_tax
  · rw [hdue, href, if_pos hc, if_pos hc]
    refine ⟨fun _ => ⟨rfl, rfl⟩, fun hle => absurd hc (not_lt.mpr hle), Or.inr rfl, ?_⟩
    constructor
    · rintro ⟨h1, -⟩
      linarith [sub_eq_zero.mp h1]
    · intro h1
      exact absurd h1.symm (ne_of_lt hc)
  · rw [hdue, href, if_neg hc, if_neg hc]
    refine ⟨fun hgt => absurd hgt hc, fun _ => ⟨rfl, rfl⟩, Or.inl rfl, ?_⟩
    constructor
    · rintro ⟨-, h2⟩
      linarith [sub_eq_zero.mp h2]
    · intro h1
      rw [h1]
      exact ⟨rfl, by ring⟩

/-- Witness for C6: the second clause at the empty input, where the total
tax and the paid amount are both 0. -/
theorem reconciliation_due_refund_witness :
    (calculate_all_taxes emptyData).tax_due = 0 ∧
    (calculate_all_taxes emptyData).refund_amount =
      (calculate_all_taxes emptyData).withholding_tax +
        (calculate_all_taxes emptyData).prepaid_tax -
        (calculate_all_taxes emptyData).total_tax :=
  (reconciliation_due_refund emptyData).2.1 (by decide)

/-- Counterexample to C1 as stated: on the C1 scenario the code computes
business income 2,350,000 (not 3,350,000) and business tax 0 (not 22,500),
because the Outsourcing total enters the expense sum twice. -/
theorem business_scenario_claim_false :
    ¬ ((calculate_all_taxes businessScenarioData).income_breakdown.business_income = 3350000 ∧
       (calculate_all_taxes businessScenarioData).business_tax = 22500) := by
  decide

/-- Claim C1 (corrected): the expense total subtracted from business
revenue counts the Outsourcing category twice (once as the seed of the
accumulation and once in the loop over all categories except Medical and
Donation) and every other category except Medical and Donation once; on
the C1 scenario the business income is therefore 2,350,000 and the
business tax 0. -/
theorem business_expense_aggregation_amended :
    (∀ ts : List Transaction,
      businessExpenses ts =
        2 * expenseSum .OUTSOURCING ts +
          (expenseSum .OFFICE_RENT ts + expenseSum .UTILITIES ts +
           expenseSum .COMMUNICATION ts + expenseSum .TRAVEL ts +
           expenseSum .ENTERTAINMENT ts + expenseSum .SUPPLIES ts +
           expenseSum .ADVERTISING ts + expenseSum .INSURANCE ts +
           expenseSum .DEPRECIATION ts + expenseSum .TRAINING ts +
           expenseSum .OTHER ts)) ∧
    (calculate_all_taxes businessScenarioData).income_breakdown.business_income = 2350000 ∧
    (calculate_all_taxes businessScenarioData).business_tax = 0 := by
  refine ⟨?_, by decide, by decide⟩
  intro ts
  have h : businessExpenses ts =
      expenseSum .OUTSOURCING ts + expenseSum .OFFICE_RENT ts +
        expenseSum .UTILITIES ts + expenseSum .COMMUNICATION ts +
        expenseSum .TRAVEL ts + expenseSum .ENTERTAINMENT ts +
        expenseSum .SUPPLIES ts + expenseSum .ADVERTISING ts +
        expenseSum .INSURANCE ts + expenseSum .DEPRECIATION ts +
        expenseSum .OUTSOURCING ts + expenseSum .TRAINING ts +
        expenseSum .OTHER ts := rfl
  rw [h]
  ring

/-- Counterexample to C3 as stated: at salary income 1,700,000 the matched
bracket is (1,800,000, 0.4, 427,500), yet the code returns
`1,700,000*0.4 + 427,500 = 1,107,500`, not the claimed
`floor(1,700,000*0.4 − 427,500) = 252,500` — the salary table's fixed
amount is added, and nothing is floored. -/
theorem bracket_contract_claim_false :
    calculate_salary_deduction 1700000 = 1107500 ∧
    mfloor (1700000 * 0.4 - 427500) = 252500 ∧
    calculate_salary_deduction 1700000 ≠ mfloor (1700000 * 0.4 - 427500) := by
  decide

/-- Claim C3 (corrected): the national income tax follows the claimed
contract — 0 for `v ≤ 0`, otherwise `floor(v*rate − subtraction)` of the
first bracket whose inclusive upper threshold is at least `v`, with
taxable income 1,950,000 taxed in the 5% bracket at 97,500.  The
salary-income deduction does not: it returns the income itself when
`v ≤ 650,000` (also for `v ≤ 0`), `v*0.55` when `v ≤ 1,625,000`, and
otherwise `v*rate + fixed` of the first matching bracket, with the fixed
amount added, never subtracted, and no flooring anywhere. -/
theorem bracket_contract_amended :
    (∀ v : ℚ, v ≤ 0 → calculate_income_tax v = 0) ∧
    (∀ v : ℚ, 0 < v → calculate_income_tax v = incomeTaxBracketValue v) ∧
    calculate_income_tax 1950000 = 97500 ∧
    (∀ v : ℚ, v ≤ 650000 → calculate_salary_deduction v = v) ∧
    (∀ v : ℚ, 650000 < v → v ≤ 1625000 → calculate_salary_deduction v = v * 0.55) ∧
    (∀ v : ℚ, 1625000 < v → v ≤ 1800000 →
      calculate_salary_deduction v = v * 0.4 + 427500) ∧
    (∀ v : ℚ, 1800000 < v → v ≤ 3600000 →
      calculate_salary_deduction v = v * 0.3 + 636000) ∧
    (∀ v : ℚ, 3600000 < v → v ≤ 6600000 →
      calculate_salary_deduction v = v * 0.2 + 1536000) ∧
    (∀ v : ℚ, 6600000 < v → v ≤ 8500000 →
      calculate_salary_deduction v = v * 0.1 + 2196000) ∧
    (∀ v : ℚ, 8500000 < v → calculate_salary_deduction v = 2955000) := by
  refine ⟨?_, ?_, by decide, ?_, ?_, ?_, ?_, ?_, ?_, ?_⟩
  · intro v hv
    simp [calculate_income_tax, hv]
  · intro v hv
    unfold calculate_income_tax incomeTaxBracketValue
    rw [if_neg (not_le.mpr hv)]
    simp only [income_tax_brackets, findBracket]
    split_ifs with h1 h2 h3 h4 h5 h6 <;>
      refine max_eq_right (mfloor_nonneg _ (by norm_num at *; linarith))
  · intro v hv
    simp [calculate_salary_deduction, hv]
  · intro v h1 h2
    unfold calculate_salary_deduction
    rw [if_neg (by linarith), if_pos h2]
  · intro v h1 h2
    unfold calculate_salary_deduction
    rw [if_neg (by linarith), if_neg (by linarith)]
    simp only [salary_deduction_rates, findBracket]
    rw [if_neg (by linarith), if_pos h2]
  · intro v h1 h2
    unfold calculate_salary_deduction
    rw [if_neg (by linarith), if_neg (by linarith)]
    simp only [salary_deduction_rates, findBracket]
    rw [if_neg (by linarith), if_neg (by linarith), if_pos h2]
  · intro v h1 h2
    unfold calculate_salary_deduction
    rw [if_neg (by linarith), if_neg (by linarith)]
    simp only [salary_deduction_rates, findBracket]
    rw [if_neg (by linarith), if_neg (by linarith), if_neg (by linarith), if_pos h2]
  · intro v h1 h2
    unfold calculate_salary_deduction
    rw [if_neg (by linarith), if_neg (by linarith)]
    simp only [salary_deduction_rates, findBracket]
    rw [if_neg (by linarith), if_neg (by linarith), if_neg (by linarith),
      if_neg (by linarith), if_pos h2]
  · intro v h1
    unfold calculate_salary_deduction
    rw [if_neg (by linarith), if_neg (by linarith)]
    simp only [salary_deduction_rates, findBracket]
    rw [if_neg (by linarith), if_neg (by linarith), if_neg (by linarith),
      if_neg (by linarith), if_neg (by linarith)]
    show v * 0.0 + 2955000 = 2955000
    norm_num

/-- Witness for C3: the income-tax clause applied in the 20% bracket. -/
theorem bracket_contract_amended_witness :
    calculate_income_tax 5000000 = incomeTaxBracketValue 5000000 :=
  bracket_contract_amended.2.1 5000000 (by norm_num)

theorem sumBy_middle_false (p : Transaction → Bool) (t : Transaction)
    (h : p t = false) (pre post : List Transaction) :
    sumBy p (pre ++ t :: post) = sumBy p (pre ++ post) := by
  simp [sumBy, List.filter_append, List.filter_cons, h]

theorem any_middle_false (p : Transaction → Bool) (t : Transaction)
    (h : p t = false) (pre post : List Transaction) :
    (pre ++ t :: post).any p = (pre ++ post).any p := by
  simp [List.any_append, List.any_cons, h]

/-- Counterexample to C2 as stated: an Expense transaction with
`tax_related = false` whose description contains the withholding marker
still enters the `withholding_tax` sum — removing it changes the result. -/
theorem tax_related_toggle_claim_false :
    (calculate_all_taxes offMarkedData).withholding_tax = 100000 ∧
    (calculate_all_taxes offMarkedDataRemoved).withholding_tax = 0 ∧
    (calculate_all_taxes offMarkedData).withholding_tax ≠
      (calculate_all_taxes offMarkedDataRemoved).withholding_tax := by
  decide

/-- Claim C2 (corrected): removing a `tax_related = false` transaction
leaves every figure of `calculate_all_taxes` unchanged except possibly
`withholding_tax`, `prepaid_tax`, `tax_due` and `refund_amount`; those too
are unchanged — giving full equality of the results — unless the removed
transaction is an Expense whose description contains the withholding or
prepayment marker, since those two description scans do not consult
`tax_related`. -/
theorem tax_related_exclusion_amended (d : TaxReturnData)
    (pre post : List Transaction) (t : Transaction) (ht : t.tax_related = false) :
    let r := calculate_all_taxes { d with transactions := pre ++ t :: post }
    let r' := calculate_all_taxes { d with transactions := pre ++ post }
    (r.total_income = r'.total_income ∧
     r.total_expense = r'.total_expense ∧
     r.net_income = r'.net_income ∧
     r.total_deductions = r'.total_deductions ∧
     r.taxable_income = r'.taxable_income ∧
     r.income_tax = r'.income_tax ∧
     r.reconstruction_tax = r'.reconstruction_tax ∧
     r.resident_tax = r'.resident_tax ∧
     r.business_tax = r'.business_tax ∧
     r.consumption_tax = r'.consumption_tax ∧
     r.total_tax = r'.total_tax ∧
     r.home_loan_deduction_applied = r'.home_loan_deduction_applied ∧
     r.estimated_quarterly_tax = r'.estimated_quarterly_tax ∧
     r.income_breakdown = r'.income_breakdown ∧
     r.deduction_breakdown = r'.deduction_breakdown) ∧
    ((t.transaction_type = .EXPENSE →
        strContains t.description withholdingMarker = false ∧
        strContains t.description prepaidMarker = false) →
      r = r') := by
  intro r r'
  have hr : r = calculate_all_taxes { d with transactions := pre ++ t :: post } := rfl
  have hr2 : r' = calculate_all_taxes { d with transactions := pre ++ post } := rfl
  rw [hr, hr2]
  have hip : ∀ c : IncomeCategory, incomePred c t = false := by
    intro c
    simp [incomePred, ht]
  have hep : ∀ c : ExpenseCategory, expensePred c t = false := by
    intro c
    simp [expensePred, ht]
  have hInc : ∀ c, incomeSum c (pre ++ t :: post) = incomeSum c (pre ++ post) :=
    fun c => sumBy_middle_false _ _ (hip c) pre post
  have hHas : ∀ c, hasIncome c (pre ++ t :: post) = hasIncome c (pre ++ post) :=
    fun c => any_middle_false _ _ (hip c) pre post
  have hExp : ∀ c, expenseSum c (pre ++ t :: post) = expenseSum c (pre ++ post) :=
    fun c => sumBy_middle_false _ _ (hep c) pre post
  have hTE : calculate_total_expense (pre ++ t :: post) =
      calculate_total_expense (pre ++ post) :=
    sumBy_middle_false _ _ (by simp [ht]) pre post
  have hBE : businessExpenses (pre ++ t :: post) = businessExpenses (pre ++ post) := by
    simp only [businessExpenses, allExpenseCategories, List.foldl, hExp]
  have hIB : calculate_total_income { d with transactions := pre ++ t :: post } =
      calculate_total_income { d with transactions := pre ++ post } := by
    simp only [calculate_total_income, hInc, hHas, hExp, hBE]
  have hDB : ∀ x : ℚ,
      calculate_total_deductions { d with transactions := pre ++ t :: post } x =
        calculate_total_deductions { d with transactions := pre ++ post } x :=
    fun _ => rfl
  constructor
  · refine ⟨?_, ?_, ?_, ?_, ?_, ?_, ?_, ?_, ?_, ?_, ?_, ?_, ?_, ?_, ?_⟩ <;>
      simp only [calculate_all_taxes, hIB, hDB, hTE, hInc, hHas, hExp, hBE]
  · intro hmark
    have hwp : (fun u : Transaction => strContains u.description withholdingMarker &&
        u.transaction_type == TransactionType.EXPENSE) t = false := by
      by_cases hty : t.transaction_type = TransactionType.EXPENSE
      · simp [(hmark hty).1]
      · have hb : (t.transaction_type == TransactionType.EXPENSE) = false := by
          cases htt : t.transaction_type
          · rfl
          · exact absurd htt hty
        simp [hb]
    have hpp : (fun u : Transaction => strContains u.description prepaidMarker &&
        u.transaction_type == TransactionType.EXPENSE) t = false := by
      by_cases hty : t.transaction_type = TransactionType.EXPENSE
      · simp [(hmark hty).2]
      · have hb : (t.transaction_type == TransactionType.EXPENSE) = false := by
          cases htt : t.transaction_type
          · rfl
          · exact absurd htt hty
        simp [hb]
    have hW : withholdingSum (pre ++ t :: post) = withholdingSum (pre ++ post) := by
      unfold withholdingSum
      exact sumBy_middle_false _ _ hwp pre post
    have hP : prepaidSum (pre ++ t :: post) = prepaidSum (pre ++ post) := by
      unfold prepaidSum
      exact sumBy_middle_false _ _ hpp pre post
    simp only [calculate_all_taxes, hIB, hDB, hTE, hInc, hW, hP]

/-- Witness for C2: removing a `tax_related = false` Expense transaction
that carries no marker leaves the full result unchanged. -/
theorem tax_related_exclusion_amended_witness :
    calculate_all_taxes { plainBaseData with
        transactions := [] ++ offPlainTransaction :: [] } =
      calculate_all_taxes { plainBaseData with
        transactions := [] ++ ([] : List Transaction) } :=
  (tax_related_exclusion_amended plainBaseData [] [] offPlainTransaction (by decide)).2
    (fun _ => ⟨by decide, by decide⟩)

end Proofs

end TaxApp
